import Mathlib

/-!
Shallow embedding of `src/libimcv/plugins/imv_os/imv_os_state.c` (strongSwan
OS IMV connection-state engine): the per-connection assessment-state record,
the package-violation ledger, the settings-violation bitmask, the language
negotiation, and the reason / remediation message builders.

Machine integers: the C counters (`int`) are modelled as `Int`, the settings
mask (`u_int`) as `Nat` with bitwise or; no arithmetic here can overflow in
a way the claims depend on.  Strings and `chunk_t` byte buffers are modelled
as `String`; linked lists as `List`.
-/

namespace ImvOsState

/-- Modelled from the spec: the OS type tag (`os_type_t`, declared in a header
that is not part of the sources); the engine only ever compares it against the
mobile variant `OS_TYPE_ANDROID`. -/
inductive os_type_t where
  | OS_TYPE_UNKNOWN
  | OS_TYPE_DEBIAN
  | OS_TYPE_UBUNTU
  | OS_TYPE_FEDORA
  | OS_TYPE_REDHAT
  | OS_TYPE_CENTOS
  | OS_TYPE_SUSE
  | OS_TYPE_GENTOO
  | OS_TYPE_ANDROID
deriving DecidableEq, Repr

/-- Modelled from the spec: the package state tag (`os_package_state_t`,
declared in a header that is not part of the sources); the engine only ever
compares it against `OS_PACKAGE_STATE_BLACKLIST`. -/
inductive os_package_state_t where
  | OS_PACKAGE_STATE_UPDATE
  | OS_PACKAGE_STATE_SECURITY
  | OS_PACKAGE_STATE_BLACKLIST
deriving DecidableEq, Repr

/-- Modelled from the spec: the three settings-violation flags (declared in a
header that is not part of the sources) are independent bits of the mask;
forwarding enabled is the first bit. -/
def OS_SETTINGS_FWD_ENABLED : Nat := 1

/-- Modelled from the spec: default password active is the second bit. -/
def OS_SETTINGS_DEFAULT_PWD_ENABLED : Nat := 2

/-- Modelled from the spec: unverified app sources allowed is the third bit. -/
def OS_SETTINGS_NON_MARKET_APPS : Nat := 4

/-- Modelled from the spec: TNC action recommendation codes (from the TNC IF-IMV
header, not part of the sources); only the default matters here. -/
def TNC_IMV_ACTION_RECOMMENDATION_NO_RECOMMENDATION : Nat := 3

/-- Modelled from the spec: TNC evaluation result codes (from the TNC IF-IMV
header, not part of the sources); only the default matters here. -/
def TNC_IMV_EVALUATION_RESULT_DONT_KNOW : Nat := 4

/-- Modelled from the spec: the initial TNC connection state label. -/
def TNC_CONNECTION_STATE_CREATE : Nat := 0

/-- A localized message table (`imv_lang_string_t[]`): an ordered sequence of
(language-tag, text) pairs; the C `NULL` terminator is not modelled. -/
abbrev imv_lang_string := List (String × String)

/-- Supported languages (`static char* languages[]`). -/
def languages : List String := ["en", "de", "pl"]

/-- Reason strings for OS settings (`reason_settings`). -/
def reason_settings : imv_lang_string :=
  [("en", "Improper OS settings were detected"),
   ("de", "Unzulässige OS Einstellungen wurden festgestellt"),
   ("pl", "Stwierdzono niewłaściwe ustawienia OS")]

/-- Reason strings for installed software packages (`reason_packages`). -/
def reason_packages : imv_lang_string :=
  [("en", "Vulnerable or blacklisted software packages were found"),
   ("de", "Schwachstellenbehaftete oder gesperrte Softwarepakete wurden gefunden"),
   ("pl", "Znaleziono pakiety podatne na atak lub będące na czarnej liście")]

/-- Instruction title for software security updates. -/
def instr_update_packages_title : imv_lang_string :=
  [("en", "Software Security Updates"),
   ("de", "Software Sicherheitsupdates"),
   ("pl", "Aktualizacja softwaru zabezpieczającego")]

/-- Instruction description for software security updates. -/
def instr_update_packages_descr : imv_lang_string :=
  [("en", "Packages with security vulnerabilities were found"),
   ("de", "Softwarepakete mit Sicherheitsschwachstellen wurden gefunden"),
   ("pl", "Znaleziono pakiety podatne na atak")]

/-- Instruction header for software security updates. -/
def instr_update_packages_header : imv_lang_string :=
  [("en", "Please update the following software packages:"),
   ("de", "Bitte updaten Sie die folgenden Softwarepakete:"),
   ("pl", "Proszę zaktualizować następujące pakiety:")]

/-- Instruction title for blacklisted software packages. -/
def instr_remove_packages_title : imv_lang_string :=
  [("en", "Blacklisted Software Packages"),
   ("de", "Gesperrte Softwarepakete"),
   ("pl", "Pakiety będące na czarnej liście")]

/-- Instruction description for blacklisted software packages. -/
def instr_remove_packages_descr : imv_lang_string :=
  [("en", "Dangerous software packages were found"),
   ("de", "Gefährliche Softwarepakete wurden gefunden"),
   ("pl", "Znaleziono niebezpieczne pakiety")]

/-- Instruction header for blacklisted software packages. -/
def instr_remove_packages_header : imv_lang_string :=
  [("en", "Please remove the following software packages:"),
   ("de", "Bitte entfernen Sie die folgenden Softwarepakete:"),
   ("pl", "Proszę usunąć następujące pakiety:")]

/-- Instruction title for IP packet forwarding. -/
def instr_fwd_enabled_title : imv_lang_string :=
  [("en", "IP Packet Forwarding"),
   ("de", "Weiterleitung von IP Paketen"),
   ("pl", "Przekazywanie pakietów IP")]

/-- Instruction description for IP packet forwarding. -/
def instr_fwd_enabled_descr : imv_lang_string :=
  [("en", "Please disable the forwarding of IP packets"),
   ("de", "Bitte deaktivieren Sie das Forwarding von IP Paketen"),
   ("pl", "Proszę zdezaktywować przekazywanie pakietów IP")]

/-- Instruction title for the default password. -/
def instr_default_pwd_enabled_title : imv_lang_string :=
  [("en", "Default Password"),
   ("de", "Default Passwort"),
   ("pl", "Hasło domyślne")]

/-- Instruction description for the default password. -/
def instr_default_pwd_enabled_descr : imv_lang_string :=
  [("en", "Please change the default password"),
   ("de", "Bitte ändern Sie das Default Passwort"),
   ("pl", "Proszę zmienić domyślne hasło")]

/-- Instruction title for unknown software origin. -/
def instr_non_market_apps_title : imv_lang_string :=
  [("en", "Unknown Software Origin"),
   ("de", "Unbekannte Softwareherkunft"),
   ("pl", "Nieznane pochodzenie softwaru")]

/-- Instruction description for unknown software origin. -/
def instr_non_market_apps_descr : imv_lang_string :=
  [("en", "Do not allow the installation of apps from unknown sources"),
   ("de", "Erlauben Sie nicht die Installation von Apps aus unbekannten Quellen"),
   ("pl", "Proszę nie dopuszczać do instalacji Apps z nieznanych źródeł")]

/-- Modelled from the spec: `imv_lang_string_select_lang` (its source file
`imv/imv_lang_string.c` is not among the sources).  Scan the peer preference
sequence in order and return the first tag that exactly matches a supported
tag; when none matches, return the first entry of the supported set. -/
def imv_lang_string_select_lang : List String → List String → String
  | [], supported => supported.headD ""
  | p :: rest, supported =>
      if p ∈ supported then p else imv_lang_string_select_lang rest supported

/-- Modelled from the spec: pick a table's text for a language tag (the catalog
maps each language tag to translated text); falls back to the table's first
entry when the tag is absent. -/
def imv_lang_string_select_string (table : imv_lang_string) (lang : String) :
    String :=
  (((table.find? (fun e => e.1 = lang)).map Prod.snd)).getD
    (table.headD ("", "")).2

/-- Modelled from the spec: a TNC Reason String object (`imv_reason_string_t`,
whose source file is not among the sources) holds the resolved language tag and
the ordered sequence of reason fragments added to it. -/
structure imv_reason_string_t where
  lang : String
  reasons : List imv_lang_string
deriving DecidableEq, Repr

/-- Modelled from the spec: `imv_reason_string_create` starts an empty reason
message in the resolved language. -/
def imv_reason_string_create (lang : String) : imv_reason_string_t :=
  { lang := lang, reasons := [] }

/-- Modelled from the spec: `add_reason` appends one reason fragment. -/
def imv_reason_string_t.add_reason (r : imv_reason_string_t)
    (t : imv_lang_string) : imv_reason_string_t :=
  { r with reasons := r.reasons ++ [t] }

/-- Modelled from the spec: `get_encoding` encodes all appended fragments, in
append order, each resolved in the message's language; the encoded byte
sequence is modelled as the ordered list of resolved fragment texts. -/
def imv_reason_string_t.get_encoding (r : imv_reason_string_t) : List String :=
  r.reasons.map (fun t => imv_lang_string_select_string t r.lang)

/-- One remediation instruction block: title, description, optional item-list
header, optional item list (package names). -/
structure instruction_entry_t where
  title : imv_lang_string
  descr : imv_lang_string
  itemsheader : Option imv_lang_string
  items : Option (List String)
deriving DecidableEq, Repr

/-- Modelled from the spec: an IETF Remediation Instructions String object
(`imv_remediation_string_t`, whose source file is not among the sources) holds
an OS-format flag (the mobile variant uses a structured XML action format), the
resolved language tag and the ordered sequence of instruction blocks. -/
structure imv_remediation_string_t where
  as_xml : Bool
  lang : String
  instructions : List instruction_entry_t
deriving DecidableEq, Repr

/-- Modelled from the spec: `imv_remediation_string_create` starts an empty
remediation message. -/
def imv_remediation_string_create (as_xml : Bool) (lang : String) :
    imv_remediation_string_t :=
  { as_xml := as_xml, lang := lang, instructions := [] }

/-- Modelled from the spec: `add_instruction` appends one instruction block. -/
def imv_remediation_string_t.add_instruction (r : imv_remediation_string_t)
    (title descr : imv_lang_string) (itemsheader : Option imv_lang_string)
    (items : Option (List String)) : imv_remediation_string_t :=
  { r with instructions :=
      r.instructions ++ [⟨title, descr, itemsheader, items⟩] }

/-- Modelled from the spec: `get_encoding` encodes the instruction blocks in
append order; the encoded byte sequence is modelled as that ordered block
list. -/
def imv_remediation_string_t.get_encoding (r : imv_remediation_string_t) :
    List instruction_entry_t :=
  r.instructions

/-- The private state record (`private_imv_os_state_t`).  `info`, `name` and
`version` are `none` / empty before the first `set_info` (the C record is
zero-initialised).  The C field `rec` is spelled `rec_` because `rec` is
reserved for the structure's recursor. -/
structure private_imv_os_state_t where
  connection_id : Nat
  state : Nat
  has_long : Bool
  has_excl : Bool
  max_msg_len : Nat
  rec_ : Nat
  eval : Nat
  info : Option String
  type : os_type_t
  name : String
  version : String
  remove_packages : List String
  update_packages : List String
  reason_string : Option imv_reason_string_t
  remediation_string : Option imv_remediation_string_t
  device_id : Int
  count : Int
  count_update : Int
  count_blacklist : Int
  count_ok : Int
  attribute_request : Bool
  package_request : Bool
  os_settings : Nat
  angel_count : Int
deriving DecidableEq, Repr

/-- Source method `imv_os_state_create`: a freshly created record; every field not set
explicitly in the C `INIT` block is zero / NULL / empty. -/
def imv_os_state_create (connection_id : Nat) : private_imv_os_state_t :=
  { connection_id := connection_id
    state := TNC_CONNECTION_STATE_CREATE
    has_long := false
    has_excl := false
    max_msg_len := 0
    rec_ := TNC_IMV_ACTION_RECOMMENDATION_NO_RECOMMENDATION
    eval := TNC_IMV_EVALUATION_RESULT_DONT_KNOW
    info := none
    type := .OS_TYPE_UNKNOWN
    name := ""
    version := ""
    remove_packages := []
    update_packages := []
    reason_string := none
    remediation_string := none
    device_id := 0
    count := 0
    count_update := 0
    count_blacklist := 0
    count_ok := 0
    attribute_request := false
    package_request := false
    os_settings := 0
    angel_count := 0 }

/-- Source method `get_connection_id`. -/
def get_connection_id (this : private_imv_os_state_t) : Nat :=
  this.connection_id

/-- Source method `set_flags`. -/
def set_flags (this : private_imv_os_state_t) (has_long has_excl : Bool) :
    private_imv_os_state_t :=
  { this with has_long := has_long, has_excl := has_excl }

/-- Source method `set_max_msg_len`. -/
def set_max_msg_len (this : private_imv_os_state_t) (max_msg_len : Nat) :
    private_imv_os_state_t :=
  { this with max_msg_len := max_msg_len }

/-- Source method `get_max_msg_len`. -/
def get_max_msg_len (this : private_imv_os_state_t) : Nat :=
  this.max_msg_len

/-- Source method `change_state`. -/
def change_state (this : private_imv_os_state_t) (new_state : Nat) :
    private_imv_os_state_t :=
  { this with state := new_state }

/-- Source method `get_recommendation`: writes both out-parameters, modelled as returning the
pair. -/
def get_recommendation (this : private_imv_os_state_t) : Nat × Nat :=
  (this.rec_, this.eval)

/-- Source method `set_recommendation`: sets both fields. -/
def set_recommendation (this : private_imv_os_state_t) (rec eval : Nat) :
    private_imv_os_state_t :=
  { this with rec_ := rec, eval := eval }

/-- Source method `set_info`: frees the old display string, rebuilds it as
`"<name> <version>"`, and stores copies of the new type, name and version. -/
def set_info (this : private_imv_os_state_t) (type : os_type_t)
    (name version : String) : private_imv_os_state_t :=
  { this with
      info := some (name ++ " " ++ version)
      type := type
      name := name
      version := version }

/-- Source method `get_info`: returns the type, name, version out-parameters and the display
string. -/
def get_info (this : private_imv_os_state_t) :
    os_type_t × String × String × Option String :=
  (this.type, this.name, this.version, this.info)

/-- Source method `set_count`: adds each delta to the corresponding running counter. -/
def set_count (this : private_imv_os_state_t)
    (count count_update count_blacklist count_ok : Int) :
    private_imv_os_state_t :=
  { this with
      count := this.count + count
      count_update := this.count_update + count_update
      count_blacklist := this.count_blacklist + count_blacklist
      count_ok := this.count_ok + count_ok }

/-- Source method `get_count`: returns the four current totals. -/
def get_count (this : private_imv_os_state_t) : Int × Int × Int × Int :=
  (this.count, this.count_update, this.count_blacklist, this.count_ok)

/-- Source method `set_attribute_request`. -/
def set_attribute_request (this : private_imv_os_state_t) (set : Bool) :
    private_imv_os_state_t :=
  { this with attribute_request := set }

/-- Source method `get_attribute_request`. -/
def get_attribute_request (this : private_imv_os_state_t) : Bool :=
  this.attribute_request

/-- Source method `set_package_request`. -/
def set_package_request (this : private_imv_os_state_t) (set : Bool) :
    private_imv_os_state_t :=
  { this with package_request := set }

/-- Source method `get_package_request`. -/
def get_package_request (this : private_imv_os_state_t) : Bool :=
  this.package_request

/-- Source method `set_device_id`. -/
def set_device_id (this : private_imv_os_state_t) (id : Int) :
    private_imv_os_state_t :=
  { this with device_id := id }

/-- Source method `get_device_id`. -/
def get_device_id (this : private_imv_os_state_t) : Int :=
  this.device_id

/-- Source method `set_os_settings`: bitwise-ors the bits into the violation mask. -/
def set_os_settings (this : private_imv_os_state_t) (settings : Nat) :
    private_imv_os_state_t :=
  { this with os_settings := this.os_settings ||| settings }

/-- Source method `get_os_settings`. -/
def get_os_settings (this : private_imv_os_state_t) : Nat :=
  this.os_settings

/-- Source method `set_angel_count`: adds 1 when `start` is true, else adds -1. -/
def set_angel_count (this : private_imv_os_state_t) (start : Bool) :
    private_imv_os_state_t :=
  { this with angel_count := this.angel_count + (if start then 1 else -1) }

/-- Source method `get_angel_count`. -/
def get_angel_count (this : private_imv_os_state_t) : Int :=
  this.angel_count

/-- Source method `add_bad_package`: a copy of the name goes to the end of the
blacklist-removal list when the package state is `OS_PACKAGE_STATE_BLACKLIST`,
else to the end of the update-needed list. -/
def add_bad_package (this : private_imv_os_state_t) (package : String)
    (package_state : os_package_state_t) : private_imv_os_state_t :=
  if package_state = os_package_state_t.OS_PACKAGE_STATE_BLACKLIST then
    { this with remove_packages := this.remove_packages ++ [package] }
  else
    { this with update_packages := this.update_packages ++ [package] }

/-- Source method `get_reason_string`: the C guard
`!count_update && !count_blacklist & !os_settings` applies bitwise and to the
0/1 results of `!`, which coincides with logical and, so it holds exactly when
all three are zero.  Returns the updated record, the boolean result, the
encoded reason string and the resolved language (the two out-parameters are
`none` on the false path, where C leaves them unwritten). -/
def get_reason_string (this : private_imv_os_state_t)
    (language_enumerator : List String) :
    private_imv_os_state_t × Bool × Option (List String) × Option String :=
  if this.count_update = 0 ∧ this.count_blacklist = 0 ∧ this.os_settings = 0
  then
    (this, false, none, none)
  else
    let reason_language :=
      imv_lang_string_select_lang language_enumerator languages
    let rs0 := imv_reason_string_create reason_language
    let rs1 := if this.count_update ≠ 0 ∨ this.count_blacklist ≠ 0 then
                 rs0.add_reason reason_packages
               else rs0
    let rs2 := if this.os_settings ≠ 0 then rs1.add_reason reason_settings
               else rs1
    ({ this with reason_string := some rs2 }, true,
      some rs2.get_encoding, some reason_language)

/-- Source method `get_remediation_instructions`: same guard as `get_reason_string`; builds
the instruction blocks in the fixed source order and attaches the configured
remediation URI (`config_remediation_uri` stands for the process-wide setting
`libimcv.plugins.imv-os.remediation_uri`, `none` when absent).  Returns the
updated record, the boolean result, the encoded instruction blocks, the
resolved language and the URI. -/
def get_remediation_instructions (this : private_imv_os_state_t)
    (language_enumerator : List String)
    (config_remediation_uri : Option String) :
    private_imv_os_state_t × Bool × Option (List instruction_entry_t) ×
      Option String × Option String :=
  if this.count_update = 0 ∧ this.count_blacklist = 0 ∧ this.os_settings = 0
  then
    (this, false, none, none, none)
  else
    let lang_code :=
      imv_lang_string_select_lang language_enumerator languages
    let rm0 := imv_remediation_string_create
                 (this.type = os_type_t.OS_TYPE_ANDROID) lang_code
    let rm1 := if this.count_blacklist ≠ 0 then
                 rm0.add_instruction instr_remove_packages_title
                   instr_remove_packages_descr
                   (some instr_remove_packages_header)
                   (some this.remove_packages)
               else rm0
    let rm2 := if this.count_update ≠ 0 then
                 rm1.add_instruction instr_update_packages_title
                   instr_update_packages_descr
                   (some instr_update_packages_header)
                   (some this.update_packages)
               else rm1
    let rm3 := if this.os_settings &&& OS_SETTINGS_FWD_ENABLED ≠ 0 then
                 rm2.add_instruction instr_fwd_enabled_title
                   instr_fwd_enabled_descr none none
               else rm2
    let rm4 := if this.os_settings &&& OS_SETTINGS_DEFAULT_PWD_ENABLED ≠ 0 then
                 rm3.add_instruction instr_default_pwd_enabled_title
                   instr_default_pwd_enabled_descr none none
               else rm3
    let rm5 := if this.os_settings &&& OS_SETTINGS_NON_MARKET_APPS ≠ 0 then
                 rm4.add_instruction instr_non_market_apps_title
                   instr_non_market_apps_descr none none
               else rm4
    ({ this with remediation_string := some rm5 }, true,
      some rm5.get_encoding, some lang_code, config_remediation_uri)

/-- One mutating call on the record within an assessment cycle (creation and
destruction end the cycle and are not operations).  The two finalize requests
are included because they replace the stored message objects. -/
inductive Op where
  | set_flags (has_long has_excl : Bool)
  | set_max_msg_len (n : Nat)
  | change_state (st : Nat)
  | set_recommendation (rec eval : Nat)
  | set_info (type : os_type_t) (name version : String)
  | set_count (count count_update count_blacklist count_ok : Int)
  | set_attribute_request (b : Bool)
  | set_package_request (b : Bool)
  | set_device_id (id : Int)
  | set_os_settings (bits : Nat)
  | set_angel_count (start : Bool)
  | add_bad_package (package : String) (package_state : os_package_state_t)
  | get_reason_string (prefs : List String)
  | get_remediation_instructions (prefs : List String) (uri : Option String)
deriving DecidableEq, Repr

/-- Apply one operation to the record (for the finalize requests, keep the
updated record and drop the outputs). -/
def Op.apply (op : Op) (s : private_imv_os_state_t) :
    private_imv_os_state_t :=
  match op with
  | .set_flags hl he => ImvOsState.set_flags s hl he
  | .set_max_msg_len n => ImvOsState.set_max_msg_len s n
  | .change_state st => ImvOsState.change_state s st
  | .set_recommendation r e => ImvOsState.set_recommendation s r e
  | .set_info t n v => ImvOsState.set_info s t n v
  | .set_count c cu cb cok => ImvOsState.set_count s c cu cb cok
  | .set_attribute_request b => ImvOsState.set_attribute_request s b
  | .set_package_request b => ImvOsState.set_package_request s b
  | .set_device_id id => ImvOsState.set_device_id s id
  | .set_os_settings bits => ImvOsState.set_os_settings s bits
  | .set_angel_count b => ImvOsState.set_angel_count s b
  | .add_bad_package p ps => ImvOsState.add_bad_package s p ps
  | .get_reason_string prefs => (ImvOsState.get_reason_string s prefs).1
  | .get_remediation_instructions prefs uri =>
      (ImvOsState.get_remediation_instructions s prefs uri).1

/-- Run a sequence of operations in order. -/
def run (ops : List Op) (s : private_imv_os_state_t) :
    private_imv_os_state_t :=
  ops.foldl (fun s op => op.apply s) s

/-- Does an operation call `set_recommendation`? -/
def Op.is_set_recommendation : Op → Bool
  | .set_recommendation _ _ => true
  | _ => false

/-- The instruction-block list that `get_remediation_instructions` builds, as
the spec describes it: removal block when the blacklist counter is nonzero,
then update block when the update counter is nonzero, then one
title/description-only block per defined settings bit, in the fixed order
forwarding, default password, non-market apps. -/
def spec_remediation_blocks (s : private_imv_os_state_t) :
    List instruction_entry_t :=
  (if s.count_blacklist ≠ 0 then
     [⟨instr_remove_packages_title, instr_remove_packages_descr,
       some instr_remove_packages_header, some s.remove_packages⟩]
   else []) ++
  (if s.count_update ≠ 0 then
     [⟨instr_update_packages_title, instr_update_packages_descr,
       some instr_update_packages_header, some s.update_packages⟩]
   else []) ++
  (if s.os_settings &&& OS_SETTINGS_FWD_ENABLED ≠ 0 then
     [⟨instr_fwd_enabled_title, instr_fwd_enabled_descr, none, none⟩]
   else []) ++
  (if s.os_settings &&& OS_SETTINGS_DEFAULT_PWD_ENABLED ≠ 0 then
     [⟨instr_default_pwd_enabled_title, instr_default_pwd_enabled_descr,
       none, none⟩]
   else []) ++
  (if s.os_settings &&& OS_SETTINGS_NON_MARKET_APPS ≠ 0 then
     [⟨instr_non_market_apps_title, instr_non_market_apps_descr, none, none⟩]
   else [])

/-- The reason fragments that `get_reason_string` appends, as the spec
describes them: the packages fragment when either package counter is nonzero,
then the settings fragment when the mask is nonzero. -/
def spec_reason_fragments (s : private_imv_os_state_t) :
    List imv_lang_string :=
  (if s.count_update ≠ 0 ∨ s.count_blacklist ≠ 0 then [reason_packages]
   else []) ++
  (if s.os_settings ≠ 0 then [reason_settings] else [])

/-- Folding `set_count` over a list of delta quadruples adds the componentwise
sums to the running counters. -/
lemma set_count_foldl (ds : List (Int × Int × Int × Int))
    (s : private_imv_os_state_t) :
    get_count (ds.foldl (fun s d => set_count s d.1 d.2.1 d.2.2.1 d.2.2.2) s)
      = (s.count + (ds.map (fun d => d.1)).sum,
         s.count_update + (ds.map (fun d => d.2.1)).sum,
         s.count_blacklist + (ds.map (fun d => d.2.2.1)).sum,
         s.count_ok + (ds.map (fun d => d.2.2.2)).sum) := by
  induction ds generalizing s with
  | nil => simp [get_count]
  | cons d ds ih =>
      simp only [List.foldl_cons, List.map_cons, List.sum_cons, ih]
      simp [set_count, add_assoc]

/-- Source method `get_reason_string` only ever rewrites the `reason_string` field of the
record. -/
lemma get_reason_string_fst (s : private_imv_os_state_t)
    (prefs : List String) :
    ∃ r, (get_reason_string s prefs).1 = { s with reason_string := r } := by
  unfold get_reason_string
  split
  · exact ⟨s.reason_string, rfl⟩
  · exact ⟨_, rfl⟩

/-- Source method `get_remediation_instructions` only ever rewrites the
`remediation_string` field of the record. -/
lemma get_remediation_instructions_fst (s : private_imv_os_state_t)
    (prefs : List String) (uri : Option String) :
    ∃ r, (get_remediation_instructions s prefs uri).1
      = { s with remediation_string := r } := by
  unfold get_remediation_instructions
  split
  · exact ⟨s.remediation_string, rfl⟩
  · exact ⟨_, rfl⟩

/-- Claim C2: starting from a freshly created record, the totals returned by
`get_count` after any finite sequence of `set_count` calls are the
componentwise sums of the deltas; more generally each call adds its deltas to
the running counters and never overwrites them. -/
theorem set_count_accumulates :
    (∀ (s : private_imv_os_state_t) (ds : List (Int × Int × Int × Int)),
       get_count (ds.foldl (fun s d => set_count s d.1 d.2.1 d.2.2.1 d.2.2.2) s)
         = (s.count + (ds.map (fun d => d.1)).sum,
            s.count_update + (ds.map (fun d => d.2.1)).sum,
            s.count_blacklist + (ds.map (fun d => d.2.2.1)).sum,
            s.count_ok + (ds.map (fun d => d.2.2.2)).sum))
  ∧ (∀ (connection_id : Nat) (ds : List (Int × Int × Int × Int)),
       get_count (ds.foldl (fun s d => set_count s d.1 d.2.1 d.2.2.1 d.2.2.2)
           (imv_os_state_create connection_id))
         = ((ds.map (fun d => d.1)).sum, (ds.map (fun d => d.2.1)).sum,
            (ds.map (fun d => d.2.2.1)).sum, (ds.map (fun d => d.2.2.2)).sum)) := by
  refine ⟨fun s ds => set_count_foldl ds s, fun cid ds => ?_⟩
  rw [set_count_foldl]
  simp [imv_os_state_create]

/-- Claim C3: `add_bad_package` with `OS_PACKAGE_STATE_BLACKLIST` appends
exactly the one new name at the end of the blacklist-removal list and leaves
the update-needed list unchanged; any other package state appends it at the
end of the update-needed list and leaves the blacklist-removal list
unchanged. -/
theorem add_bad_package_classifies :
    (∀ (s : private_imv_os_state_t) (p : String),
       (add_bad_package s p .OS_PACKAGE_STATE_BLACKLIST).remove_packages
           = s.remove_packages ++ [p]
       ∧ (add_bad_package s p .OS_PACKAGE_STATE_BLACKLIST).update_packages
           = s.update_packages)
  ∧ (∀ (s : private_imv_os_state_t) (p : String) (ps : os_package_state_t),
       ps ≠ .OS_PACKAGE_STATE_BLACKLIST →
       (add_bad_package s p ps).update_packages = s.update_packages ++ [p]
       ∧ (add_bad_package s p ps).remove_packages = s.remove_packages) := by
  constructor
  · intro s p
    simp [add_bad_package]
  · intro s p ps h
    simp [add_bad_package, h]

/-- Witness for claim C3 at a concrete non-blacklist package state. -/
theorem add_bad_package_classifies_witness :
    (add_bad_package (imv_os_state_create 0) "vuln"
        .OS_PACKAGE_STATE_UPDATE).update_packages
      = (imv_os_state_create 0).update_packages ++ ["vuln"]
    ∧ (add_bad_package (imv_os_state_create 0) "vuln"
        .OS_PACKAGE_STATE_UPDATE).remove_packages
      = (imv_os_state_create 0).remove_packages :=
  add_bad_package_classifies.2 (imv_os_state_create 0) "vuln"
    .OS_PACKAGE_STATE_UPDATE (by decide)

/-- Claim C7: `set_angel_count true` adds exactly one to the sub-check
reference counter, `set_angel_count false` subtracts exactly one, with no
lower bound (the counter can go below zero); the concrete sequence true,
true, false from a fresh record leaves the counter at 1. -/
theorem set_angel_count_inc_dec :
    (∀ s : private_imv_os_state_t,
       get_angel_count (set_angel_count s true) = s.angel_count + 1)
  ∧ (∀ s : private_imv_os_state_t,
       get_angel_count (set_angel_count s false) = s.angel_count - 1)
  ∧ (∀ connection_id : Nat,
       get_angel_count (set_angel_count (set_angel_count (set_angel_count
         (imv_os_state_create connection_id) true) true) false) = 1)
  ∧ get_angel_count (set_angel_count (imv_os_state_create 0) false) < 0 := by
  refine ⟨fun s => rfl, fun s => ?_, fun cid => ?_, by decide⟩
  · simp [get_angel_count, set_angel_count, Int.sub_eq_add_neg]
  · simp [get_angel_count, set_angel_count, imv_os_state_create]

/-- Claim C8: `set_info` replaces the OS identity with the new type, name and
version, and recomputes the display string returned by `get_info` to be the
name, one space, then the version. -/
theorem set_info_replaces (s : private_imv_os_state_t) (type : os_type_t)
    (name version : String) :
    get_info (set_info s type name version)
      = (type, name, version, some (name ++ " " ++ version)) := rfl

/-- No operation of a cycle clears a bit of the settings mask. -/
lemma apply_keeps_os_settings_bit (op : Op) (s : private_imv_os_state_t)
    (i : Nat) (h : s.os_settings.testBit i = true) :
    ((op.apply s).os_settings).testBit i = true := by
  cases op
  all_goals try exact h
  · simp only [Op.apply, set_os_settings]
    simp [Nat.testBit_lor, h]
  · simp only [Op.apply, add_bad_package]
    split <;> exact h
  · next prefs =>
      obtain ⟨r, hr⟩ := get_reason_string_fst s prefs
      simp only [Op.apply]
      rw [hr]
      exact h
  · next prefs uri =>
      obtain ⟨r, hr⟩ := get_remediation_instructions_fst s prefs uri
      simp only [Op.apply]
      rw [hr]
      exact h

/-- Claim C4: `set_os_settings` ors the bits into the mask; two successive
calls leave both arguments' bits set in the mask returned by
`get_os_settings`; and no operation within a cycle ever clears a bit that has
been set. -/
theorem os_settings_or_accumulated :
    (∀ (s : private_imv_os_state_t) (bits : Nat),
       get_os_settings (set_os_settings s bits) = s.os_settings ||| bits)
  ∧ (∀ (s : private_imv_os_state_t) (a b i : Nat),
       (a.testBit i = true ∨ b.testBit i = true) →
       (get_os_settings (set_os_settings (set_os_settings s a) b)).testBit i
         = true)
  ∧ (∀ (op : Op) (s : private_imv_os_state_t) (i : Nat),
       s.os_settings.testBit i = true →
       ((op.apply s).os_settings).testBit i = true) := by
  refine ⟨fun s bits => rfl, fun s a b i h => ?_,
    fun op s i h => apply_keeps_os_settings_bit op s i h⟩
  simp only [get_os_settings, set_os_settings, Nat.testBit_lor]
  rcases h with h | h <;> simp [h]

/-- Witness for claim C4 at concrete bits and a concrete preserving
operation. -/
theorem os_settings_or_accumulated_witness :
    (get_os_settings (set_os_settings (set_os_settings
        (imv_os_state_create 0) 1) 2)).testBit 1 = true
    ∧ ((Op.set_count 1 1 1 1).apply
        (set_os_settings (imv_os_state_create 0) 4)).os_settings.testBit 2
        = true :=
  ⟨os_settings_or_accumulated.2.1 (imv_os_state_create 0) 1 2 1
     (Or.inr (by decide)),
   os_settings_or_accumulated.2.2 (Op.set_count 1 1 1 1)
     (set_os_settings (imv_os_state_create 0) 4) 2 (by decide)⟩

/-- Any operation other than `set_recommendation` leaves the
recommendation/evaluation pair untouched. -/
lemma apply_keeps_recommendation (op : Op) (s : private_imv_os_state_t)
    (h : op.is_set_recommendation = false) :
    (op.apply s).rec_ = s.rec_ ∧ (op.apply s).eval = s.eval := by
  cases op
  all_goals try exact ⟨rfl, rfl⟩
  · simp [Op.is_set_recommendation] at h
  · constructor <;> (simp only [Op.apply, add_bad_package]; split <;> rfl)
  · next prefs =>
      obtain ⟨r, hr⟩ := get_reason_string_fst s prefs
      simp only [Op.apply]
      rw [hr]
      exact ⟨rfl, rfl⟩
  · next prefs uri =>
      obtain ⟨r, hr⟩ := get_remediation_instructions_fst s prefs uri
      simp only [Op.apply]
      rw [hr]
      exact ⟨rfl, rfl⟩

/-- Running operations that never call `set_recommendation` keeps the
recommendation/evaluation pair. -/
lemma run_keeps_recommendation (ops : List Op) (s : private_imv_os_state_t)
    (h : ∀ op ∈ ops, op.is_set_recommendation = false) :
    get_recommendation (run ops s) = get_recommendation s := by
  induction ops generalizing s with
  | nil => rfl
  | cons op ops ih =>
      have h1 := apply_keeps_recommendation op s (h op (by simp))
      have h2 := ih (op.apply s) (fun o ho => h o (by simp [ho]))
      show get_recommendation (run ops (op.apply s)) = get_recommendation s
      rw [h2]
      simp [get_recommendation, h1.1, h1.2]

/-- Claim C9: on a freshly created record the recommendation/evaluation pair
returned by `get_recommendation` stays at (no recommendation, don't know)
through any operation sequence that never calls `set_recommendation`, and
`set_recommendation` updates both fields, which `get_recommendation` returns
together. -/
theorem recommendation_pair_defaults :
    (∀ (connection_id : Nat) (ops : List Op),
       (∀ op ∈ ops, op.is_set_recommendation = false) →
       get_recommendation (run ops (imv_os_state_create connection_id))
         = (TNC_IMV_ACTION_RECOMMENDATION_NO_RECOMMENDATION,
            TNC_IMV_EVALUATION_RESULT_DONT_KNOW))
  ∧ (∀ (s : private_imv_os_state_t) (rec eval : Nat),
       get_recommendation (set_recommendation s rec eval) = (rec, eval)) := by
  refine ⟨fun cid ops h => ?_, fun s r e => rfl⟩
  rw [run_keeps_recommendation ops _ h]
  rfl

/-- Witness for claim C9 on a concrete operation sequence without
`set_recommendation`. -/
theorem recommendation_pair_defaults_witness :
    get_recommendation (run [Op.set_count 3 1 1 1, Op.set_os_settings 1,
        Op.add_bad_package "p" .OS_PACKAGE_STATE_BLACKLIST]
        (imv_os_state_create 5))
      = (TNC_IMV_ACTION_RECOMMENDATION_NO_RECOMMENDATION,
         TNC_IMV_EVALUATION_RESULT_DONT_KNOW) :=
  recommendation_pair_defaults.1 5 [Op.set_count 3 1 1 1, Op.set_os_settings 1,
    Op.add_bad_package "p" .OS_PACKAGE_STATE_BLACKLIST] (by decide)

/-- Claim C10: the two finalize operations leave every field of the record
unchanged except the stored reason-message respectively remediation-message
object. -/
theorem finalize_frame (s : private_imv_os_state_t) (prefs : List String)
    (uri : Option String) :
    (get_reason_string s prefs).1
      = { s with reason_string := ((get_reason_string s prefs).1).reason_string }
  ∧ (get_remediation_instructions s prefs uri).1
      = { s with remediation_string :=
            ((get_remediation_instructions s prefs uri).1).remediation_string } := by
  constructor
  · obtain ⟨r, hr⟩ := get_reason_string_fst s prefs
    rw [hr]
  · obtain ⟨r, hr⟩ := get_remediation_instructions_fst s prefs uri
    rw [hr]

/-- The language selection returns the first preference found in the supported
set, else the first supported entry. -/
lemma select_lang_eq_find? (prefs supported : List String) :
    imv_lang_string_select_lang prefs supported
      = ((prefs.find? (fun t => supported.contains t)).getD
          (supported.headD "")) := by
  induction prefs with
  | nil => simp [imv_lang_string_select_lang]
  | cons p rest ih =>
      simp only [imv_lang_string_select_lang]
      by_cases h : p ∈ supported
      · rw [if_pos h, List.find?_cons_of_pos _ (by simpa using h)]
        rfl
      · rw [if_neg h, List.find?_cons_of_neg _ (by simpa using h), ih]

/-- Claim C5 (spec-modelled): the Language Resolver returns the first peer
preference that exactly matches a supported tag, else the default (the first
supported entry); with supported set en, de, pl the preference fr, de, en
resolves to de and fr, it resolves to the default en. -/
theorem language_resolver_first_match :
    (∀ (prefs supported : List String),
       imv_lang_string_select_lang prefs supported
         = ((prefs.find? (fun t => supported.contains t)).getD
             (supported.headD "")))
  ∧ imv_lang_string_select_lang ["fr", "de", "en"] languages = "de"
  ∧ imv_lang_string_select_lang ["fr", "it"] languages = "en"
  ∧ languages.headD "" = "en" :=
  ⟨select_lang_eq_find?, by decide, by decide, by decide⟩

/-- Conditionally adding a reason fragment appends it to the fragment list. -/
lemma add_reason_ite (c : Prop) [inst : Decidable c]
    (r : imv_reason_string_t) (t : imv_lang_string) :
    (if c then r.add_reason t else r).reasons
      = r.reasons ++ (if c then [t] else []) := by
  split <;> simp [imv_reason_string_t.add_reason]

/-- Conditionally adding a reason fragment keeps the language. -/
lemma add_reason_ite_lang (c : Prop) [inst : Decidable c]
    (r : imv_reason_string_t) (t : imv_lang_string) :
    (if c then r.add_reason t else r).lang = r.lang := by
  split <;> rfl

/-- Conditionally adding an instruction block appends it to the block list. -/
lemma add_instruction_ite (c : Prop) [inst : Decidable c]
    (r : imv_remediation_string_t) (t d : imv_lang_string)
    (ih : Option imv_lang_string) (it : Option (List String)) :
    (if c then r.add_instruction t d ih it else r).instructions
      = r.instructions ++ (if c then [⟨t, d, ih, it⟩] else []) := by
  split <;> simp [imv_remediation_string_t.add_instruction]

/-- Conditionally adding an instruction block keeps the language. -/
lemma add_instruction_ite_lang (c : Prop) [inst : Decidable c]
    (r : imv_remediation_string_t) (t d : imv_lang_string)
    (ih : Option imv_lang_string) (it : Option (List String)) :
    (if c then r.add_instruction t d ih it else r).lang = r.lang := by
  split <;> rfl

/-- On the triggering path, `get_reason_string` returns true, the encoding of
the spec-side fragment list in the resolved language, and that language. -/
lemma get_reason_string_spec (s : private_imv_os_state_t)
    (prefs : List String)
    (h : ¬(s.count_update = 0 ∧ s.count_blacklist = 0 ∧ s.os_settings = 0)) :
    (get_reason_string s prefs).2.1 = true
    ∧ (get_reason_string s prefs).2.2.1
      = some ((spec_reason_fragments s).map
          (fun t => imv_lang_string_select_string t
            (imv_lang_string_select_lang prefs languages)))
    ∧ (get_reason_string s prefs).2.2.2
      = some (imv_lang_string_select_lang prefs languages) := by
  by_cases h1 : s.count_update ≠ 0 ∨ s.count_blacklist ≠ 0
  · by_cases h2 : s.os_settings ≠ 0 <;>
      simp [get_reason_string, if_neg h, h1, h2, imv_reason_string_create,
        imv_reason_string_t.add_reason, imv_reason_string_t.get_encoding,
        spec_reason_fragments]
  · by_cases h2 : s.os_settings ≠ 0
    · simp [get_reason_string, if_neg h, h1, h2, imv_reason_string_create,
        imv_reason_string_t.add_reason, imv_reason_string_t.get_encoding,
        spec_reason_fragments]
    · push_neg at h1 h2
      exact absurd ⟨h1.1, h1.2, h2⟩ h

/-- On the triggering path, `get_remediation_instructions` returns true, the
encoding of the spec-side block list, the resolved language and the configured
URI. -/
lemma get_remediation_instructions_spec (s : private_imv_os_state_t)
    (prefs : List String) (uri : Option String)
    (h : ¬(s.count_update = 0 ∧ s.count_blacklist = 0 ∧ s.os_settings = 0)) :
    (get_remediation_instructions s prefs uri).2.1 = true
    ∧ (get_remediation_instructions s prefs uri).2.2.1
      = some (spec_remediation_blocks s)
    ∧ (get_remediation_instructions s prefs uri).2.2.2.1
      = some (imv_lang_string_select_lang prefs languages)
    ∧ (get_remediation_instructions s prefs uri).2.2.2.2 = uri := by
  unfold get_remediation_instructions
  rw [if_neg h]
  refine ⟨rfl, ?_, rfl, rfl⟩
  simp only [imv_remediation_string_t.get_encoding, add_instruction_ite,
    imv_remediation_string_create, spec_remediation_blocks,
    List.nil_append, List.append_assoc]

/-- Claim C1 counterexample: with an update counter driven to -1 (a legal
`set_count` call with a negative delta), `get_reason_string` produces a result
although no counter is greater than zero and the mask is zero; and with an
undefined settings bit (mask 8), `get_remediation_instructions` returns true
with an empty encoded payload. -/
theorem reason_trigger_counterexample :
    ((get_reason_string (set_count (imv_os_state_create 0) 0 (-1) 0 0)
        []).2.1 = true
     ∧ ¬((set_count (imv_os_state_create 0) 0 (-1) 0 0).count_update > 0
         ∨ (set_count (imv_os_state_create 0) 0 (-1) 0 0).count_blacklist > 0
         ∨ (set_count (imv_os_state_create 0) 0 (-1) 0 0).os_settings ≠ 0))
  ∧ ((get_remediation_instructions (set_os_settings (imv_os_state_create 0) 8)
        [] none).2.1 = true
     ∧ (get_remediation_instructions (set_os_settings (imv_os_state_create 0) 8)
        [] none).2.2.1 = some []) := by
  refine ⟨⟨?_, by decide⟩, ?_, ?_⟩ <;> decide

/-- Claim C1 (amended): both finalize operations produce a result exactly when
`count_update`, `count_blacklist` or the settings mask is nonzero; when all
four counters and the mask are zero both return false with no payload; when
`count_blacklist = 1` or the mask is nonzero, `get_reason_string` returns true
with a non-empty encoded payload, and `get_remediation_instructions` returns
true, with a non-empty encoded payload when `count_blacklist = 1` or a defined
settings bit is set. -/
theorem reason_remediation_trigger (s : private_imv_os_state_t)
    (prefs : List String) (uri : Option String) :
    ((get_reason_string s prefs).2.1 = true ↔
       (s.count_update ≠ 0 ∨ s.count_blacklist ≠ 0 ∨ s.os_settings ≠ 0))
  ∧ ((get_remediation_instructions s prefs uri).2.1 = true ↔
       (s.count_update ≠ 0 ∨ s.count_blacklist ≠ 0 ∨ s.os_settings ≠ 0))
  ∧ (s.count = 0 ∧ s.count_update = 0 ∧ s.count_blacklist = 0
       ∧ s.count_ok = 0 ∧ s.os_settings = 0 →
       get_reason_string s prefs = (s, false, none, none)
       ∧ get_remediation_instructions s prefs uri = (s, false, none, none, none))
  ∧ (s.count_blacklist = 1 ∨ s.os_settings ≠ 0 →
       (get_reason_string s prefs).2.1 = true
       ∧ ∃ enc, (get_reason_string s prefs).2.2.1 = some enc ∧ enc ≠ [])
  ∧ (s.count_blacklist = 1
       ∨ s.os_settings &&& OS_SETTINGS_FWD_ENABLED ≠ 0
       ∨ s.os_settings &&& OS_SETTINGS_DEFAULT_PWD_ENABLED ≠ 0
       ∨ s.os_settings &&& OS_SETTINGS_NON_MARKET_APPS ≠ 0 →
       (get_remediation_instructions s prefs uri).2.1 = true
       ∧ ∃ blocks, (get_remediation_instructions s prefs uri).2.2.1
           = some blocks ∧ blocks ≠ []) := by
  refine ⟨?_, ?_, ?_, ?_, ?_⟩
  · by_cases hc : s.count_update = 0 ∧ s.count_blacklist = 0 ∧ s.os_settings = 0
    · unfold get_reason_string
      rw [if_pos hc]
      simp [hc.1, hc.2.1, hc.2.2]
    · rw [(get_reason_string_spec s prefs hc).1]
      simp only [true_iff]
      tauto
  · by_cases hc : s.count_update = 0 ∧ s.count_blacklist = 0 ∧ s.os_settings = 0
    · unfold get_remediation_instructions
      rw [if_pos hc]
      simp [hc.1, hc.2.1, hc.2.2]
    · rw [(get_remediation_instructions_spec s prefs uri hc).1]
      simp only [true_iff]
      tauto
  · intro hz
    constructor
    · unfold get_reason_string
      rw [if_pos ⟨hz.2.1, hz.2.2.1, hz.2.2.2.2⟩]
    · unfold get_remediation_instructions
      rw [if_pos ⟨hz.2.1, hz.2.2.1, hz.2.2.2.2⟩]
  · intro h
    have hc : ¬(s.count_update = 0 ∧ s.count_blacklist = 0 ∧ s.os_settings = 0) := by
      rcases h with h | h
      · rintro ⟨-, h2, -⟩
        rw [h] at h2
        exact one_ne_zero h2
      · rintro ⟨-, -, h3⟩
        exact h h3
    have hfrag : spec_reason_fragments s ≠ [] := by
      rcases h with h | h
      · simp [spec_reason_fragments, h]
      · simp [spec_reason_fragments, h]
    refine ⟨(get_reason_string_spec s prefs hc).1,
      ⟨_, (get_reason_string_spec s prefs hc).2.1, ?_⟩⟩
    simpa using hfrag
  · intro h
    have hmask : ∀ b : Nat, s.os_settings &&& b ≠ 0 → s.os_settings ≠ 0 := by
      intro b hb h0
      rw [h0] at hb
      simp at hb
    have hc : ¬(s.count_update = 0 ∧ s.count_blacklist = 0 ∧ s.os_settings = 0) := by
      rcases h with h | h | h | h
      · rintro ⟨-, h2, -⟩
        rw [h] at h2
        exact one_ne_zero h2
      all_goals rintro ⟨-, -, h3⟩
      all_goals exact hmask _ h h3
    have hblocks : spec_remediation_blocks s ≠ [] := by
      rcases h with h | h | h | h <;>
        simp [spec_remediation_blocks, h]
    exact ⟨(get_remediation_instructions_spec s prefs uri hc).1,
      ⟨_, (get_remediation_instructions_spec s prefs uri hc).2.1, hblocks⟩⟩

/-- Witness for claim C1 at a concrete record with one blacklisted package
counted. -/
theorem reason_remediation_trigger_witness :
    (get_reason_string (set_count (imv_os_state_create 0) 1 0 1 0) []).2.1
      = true
    ∧ ∃ enc, (get_reason_string (set_count (imv_os_state_create 0) 1 0 1 0)
        []).2.2.1 = some enc ∧ enc ≠ [] :=
  (reason_remediation_trigger (set_count (imv_os_state_create 0) 1 0 1 0)
    [] none).2.2.2.1 (Or.inl (by decide))

/-- Claim C6 counterexample: with the blacklist counter driven to -1 (not
positive) and everything else zero, `get_remediation_instructions` still emits
the blacklist-removal block. -/
theorem remediation_order_counterexample :
    (get_remediation_instructions (set_count (imv_os_state_create 0) 0 0 (-1) 0)
        [] none).2.2.1
      = some [⟨instr_remove_packages_title, instr_remove_packages_descr,
              some instr_remove_packages_header, some []⟩]
    ∧ ¬((set_count (imv_os_state_create 0) 0 0 (-1) 0).count_blacklist > 0) := by
  constructor <;> decide

/-- Claim C6 (amended): whenever a result is produced, the encoded payload is
exactly the block sequence described by `spec_remediation_blocks`: the
blacklist-removal block (with the full removal list) when `count_blacklist` is
nonzero, then the update block (with the full update list) when `count_update`
is nonzero, then one title/description-only block per set defined settings
bit, in the fixed order forwarding, default password, non-market apps; in the
concrete scenario with one blacklisted and one update package counted and only
the default-password bit set, exactly the three blocks removal, update,
default-password are produced, in that order. -/
theorem remediation_block_order (s : private_imv_os_state_t)
    (prefs : List String) (uri : Option String)
    (h : s.count_update ≠ 0 ∨ s.count_blacklist ≠ 0 ∨ s.os_settings ≠ 0) :
    (get_remediation_instructions s prefs uri).2.2.1
      = some (spec_remediation_blocks s)
  ∧ (get_remediation_instructions
        (set_os_settings (add_bad_package (add_bad_package
          (set_count (imv_os_state_create 7) 2 1 1 0)
          "badpkg" .OS_PACKAGE_STATE_BLACKLIST)
          "oldpkg" .OS_PACKAGE_STATE_UPDATE)
          OS_SETTINGS_DEFAULT_PWD_ENABLED) ["en"] none).2.2.1
      = some [⟨instr_remove_packages_title, instr_remove_packages_descr,
              some instr_remove_packages_header, some ["badpkg"]⟩,
              ⟨instr_update_packages_title, instr_update_packages_descr,
              some instr_update_packages_header, some ["oldpkg"]⟩,
              ⟨instr_default_pwd_enabled_title, instr_default_pwd_enabled_descr,
              none, none⟩] := by
  constructor
  · refine (get_remediation_instructions_spec s prefs uri ?_).2.1
    tauto
  · decide

/-- Witness for claim C6 at the concrete three-block scenario. -/
theorem remediation_block_order_witness :
    (get_remediation_instructions
        (set_os_settings (set_count (imv_os_state_create 7) 2 1 1 0)
          OS_SETTINGS_DEFAULT_PWD_ENABLED) [] none).2.2.1
      = some (spec_remediation_blocks
          (set_os_settings (set_count (imv_os_state_create 7) 2 1 1 0)
            OS_SETTINGS_DEFAULT_PWD_ENABLED)) :=
  (remediation_block_order
    (set_os_settings (set_count (imv_os_state_create 7) 2 1 1 0)
      OS_SETTINGS_DEFAULT_PWD_ENABLED) [] none (by decide)).1

end ImvOsState
